import Mathlib

/-!
Verification development for the ngSkinTools2 wrapper scripts repository.

The repository has two Python source files:
* `ngSkinTools2/operations/ilm_importFromJson_actions.py` — UI glue that reads an
  exported joint/weight JSON file and matches the recorded joint paths against the
  current Maya scene (`ilm_data_list`).
* `ngSkinTools2/mllInterface.py` — a thin wrapper (`MllInterface`) over the compiled
  `ngst2Layers` Maya command, plus the `BatchUpdateContext` scoped helper.

Pure fragments of that code are embedded below as Lean definitions.  Python floats
are modelled as rationals, Maya scene membership as list membership, and the call
stream to the compiled command as explicit event lists.  Behaviour that lives only
inside the compiled `ngst2Layers` command (weight buffers, opacity storage, batch
update counters, pruning) is not part of the repository sources; those parts are
modelled from the specification and are marked as such in their doc comments.
-/

namespace NgSkinTools2

/-! ## Import action: `ilm_data_list` (ilm_importFromJson_actions.py, lines 42-67) -/

/-- One parsed record of the import file: a joint path plus its weights
(the code reads only the `path` field of each record). -/
structure IlmRecord where
  path : String
  weights : List ℚ
deriving DecidableEq

/-- Embeds the loop
`for values in data_values: jointsSelectList = [(item['path']) for item in values]`:
the accumulator is REBOUND (not extended) on every influence group, so only the
paths of the last group survive; an empty file yields the initial `[]`. -/
def jointsSelectList (data : List (List IlmRecord)) : List String :=
  data.foldl (fun _jointsSelectList values => values.map (fun item => item.path)) []

/-- Splits a character list at every bar character, keeping empty chunks, matching
the semantics of the Python `split` method with a bar separator. -/
def splitCharsOnBar : List Char → List (List Char)
  | [] => [[]]
  | c :: rest =>
      let r := splitCharsOnBar rest
      if c = '|' then [] :: r
      else
        match r with
        | [] => [[c]]
        | g :: gs => (c :: g) :: gs

/-- Embeds the Python expression `object.split("|")` on DAG paths. -/
def pySplitOnBar (s : String) : List String :=
  (splitCharsOnBar s.data).map (fun l => String.mk l)

/-- Warning text emitted for an object that is missing from the scene:
`object.split("|")[-1]` followed by the fixed message (apostrophe elided). -/
def missingWarning (object : String) : String :=
  (pySplitOnBar object).getLastD object ++ " does not exist in the scene"

/-- Embeds the scan loop of `ilm_data_list` over the assembled path list: for each
object, if it exists in the scene it is appended to `newList`, otherwise a warning
is emitted.  Returns `(warnings, newList)` in emission order. -/
def ilmScan (scene : List String) : List String → List String × List String
  | [] => ([], [])
  | object :: rest =>
      let r := ilmScan scene rest
      if scene.contains object then (r.1, object :: r.2)
      else (missingWarning object :: r.1, r.2)

/-- Embeds `ilm_data_list(file_name, selected_format)` after the file has been
parsed into `data` (the list of influence groups, in file order) given the set of
objects that exist in the scene.  Returns the emitted warnings together with
either the matched list or the raised `ValueError` message. -/
def ilm_data_list (scene : List String) (data : List (List IlmRecord)) :
    List String × Except String (List String) :=
  let js := jointsSelectList data
  let s := ilmScan scene js
  (s.1,
    if s.2.isEmpty then
      Except.error "nothing object is matched between the data and the scene!"
    else Except.ok s.2)

/-- Follows the claim wording (refinement side, not the code): the paths of ALL
records across ALL influence groups of the file. -/
def specAllRecordsPaths (data : List (List IlmRecord)) : List String :=
  data.flatten.map (fun item => item.path)

/-- Follows the claim wording (refinement side, not the code): the subset of all
records' paths that exist in the current scene. -/
def specMatchedObjects (scene : List String) (data : List (List IlmRecord)) :
    List String :=
  (specAllRecordsPaths data).filter (fun o => scene.contains o)

/-! ## `MllInterface.pruneWeights` / `pruneMask` (mllInterface.py, lines 492-507) -/

/-- Embeds the Python coercion `int(layerId)` applied to an optional layer id:
`int(None)` raises a `TypeError`, any integer passes through. -/
def pyIntOfOption : Option ℤ → Except String ℤ
  | none => Except.error "TypeError: int argument must not be NoneType"
  | some v => Except.ok v

/-- The keyword arguments `pruneWeights`/`pruneMask` pass to `ngst2Layers`. -/
structure PruneCmdArgs where
  layerId : ℤ
  isMask : Bool
  pruneWeightsThreshold : ℚ
deriving DecidableEq

/-- Embeds `MllInterface.pruneWeights(layerId=None, threshold=0.01)`: the body is
`self.ngSkinLayerCmd(e=True, layerId=int(layerId), pruneWeights=True, ...)`, so the
optional id is coerced with `int(...)` before any defaulting can happen. -/
def pruneWeights (layerId : Option ℤ) (threshold : ℚ) : Except String PruneCmdArgs :=
  (pyIntOfOption layerId).map (fun lid => ⟨lid, false, threshold⟩)

/-- Embeds `MllInterface.pruneMask(layerId=None, threshold=0.01)`; same shape as
`pruneWeights` with the `pruneMask=True` flag. -/
def pruneMask (layerId : Option ℤ) (threshold : ℚ) : Except String PruneCmdArgs :=
  (pyIntOfOption layerId).map (fun lid => ⟨lid, true, threshold⟩)

/-! ## `BatchUpdateContext` and the with-statement (mllInterface.py, lines 366-405 and 521-536) -/

/-- One call made by the wrapper to the compiled `ngst2Layers` command. -/
inductive MllEvent where
  | beginDataUpdate : MllEvent
  | endDataUpdate : MllEvent
  | otherCall : ℕ → MllEvent
deriving DecidableEq

/-- Embeds `MllInterface.beginDataUpdate`: one `beginDataUpdate=True` call is
appended to the call log. -/
def beginDataUpdate (callLog : List MllEvent) : List MllEvent :=
  callLog ++ [MllEvent.beginDataUpdate]

/-- Embeds `MllInterface.endDataUpdate`: one `endDataUpdate=True` call is appended
to the call log. -/
def endDataUpdate (callLog : List MllEvent) : List MllEvent :=
  callLog ++ [MllEvent.endDataUpdate]

/-- A Python context manager over state `σ`: what its enter and exit methods do to
the state, and whether the value returned by exit is truthy (suppressing the
exception). -/
structure PyContextManager (σ : Type) where
  enterAction : σ → σ
  exitAction : σ → σ
  suppressExc : Bool

/-- Embeds `BatchUpdateContext`: enter runs `self.mll.beginDataUpdate()`, exit runs
`self.mll.endDataUpdate()` and returns `None` (falsy, so exceptions propagate). -/
def BatchUpdateContext : PyContextManager (List MllEvent) :=
  ⟨beginDataUpdate, endDataUpdate, false⟩

/-- Semantics of the Python with-statement for a context manager whose body either
finishes normally (`none`) or raises (`some e`): the exit method runs on both
paths, and the exception is re-raised unless exit returned a truthy value. -/
def pyWith {σ ε : Type} (ctx : PyContextManager σ) (body : σ → σ × Option ε)
    (s : σ) : σ × Option ε :=
  let s1 := ctx.enterAction s
  let r := body s1
  let s2 := ctx.exitAction r.1
  match r.2 with
  | none => (s2, none)
  | some e => (s2, if ctx.suppressExc then none else some e)

/-! ## Null-layer encoding (mllInterface.py, lines 78-87, 186-195, 293-300) -/

/-- Embeds the marshalling in `setCurrentLayer`: `if layerId is None: layerId = 0`
then `cl=int(layerId)`. -/
def setCurrentLayerArg : Option ℤ → ℤ
  | none => 0
  | some l => l

/-- Embeds the marshalling in `setLayerParent`: `if parentLayerId is None:
parentLayerId = 0` then `parent=int(parentLayerId)`. -/
def setLayerParentArg : Option ℤ → ℤ
  | none => 0
  | some p => p

/-- Embeds the result handling of `getCurrentLayer`: `if result == 0: return None;
return result`. -/
def getCurrentLayerResult (result : ℤ) : Option ℤ :=
  if result = 0 then none else some result

/-- Embeds the result handling of `getLayerParent`: `if result == 0: return None;
return result`. -/
def getLayerParentResult (result : ℤ) : Option ℤ :=
  if result = 0 then none else some result

/-! ## Weight buffers (spec-modelled engine state plus src marshalling) -/

/-- A paint target of a layer: a logical influence index, or one of the named
targets `mask` / `dq` (mllInterface.py, `NamedPaintTarget`). -/
inductive PaintTarget where
  | influence : ℕ → PaintTarget
  | mask : PaintTarget
  | dq : PaintTarget
deriving DecidableEq

/-- The weight buffers of all layers, keyed by layer id and paint target; `none`
is the uninitialized state of a buffer. -/
def LayerBuffers : Type := ℤ → PaintTarget → Option (List ℚ)

/-- Embeds `MllInterface.__floatListAsString`: empty string for an empty (or
absent) float list, otherwise the values comma-joined. -/
def floatListAsString (floatList : List ℚ) : String :=
  if floatList.isEmpty then "" else String.intercalate "," (floatList.map toString)

/-- Modelled from the spec: the weight-buffer write of the compiled `ngst2Layers`
command is not part of the repository sources.  Per the spec (Weight Buffer
contract) and the `setInfluenceWeights` docstring, a write stores the given values
with every value above 1.0 capped at 1.0, and an empty sequence (marshalled as the
empty string by `__floatListAsString`) resets the buffer to uninitialized. -/
def setInfluenceWeights (layerId : ℤ) (target : PaintTarget) (weights : List ℚ)
    (st : LayerBuffers) : LayerBuffers :=
  fun l t =>
    if l = layerId ∧ t = target then
      if weights.isEmpty then none else some (weights.map (fun w => min w 1))
    else st l t

/-- Modelled from the spec: the weight-buffer read of the compiled `ngst2Layers`
command is not part of the repository sources.  Per the spec, reading an
uninitialized buffer yields the empty sequence (the wrapper side is
`__asFloatList`, which maps a `None` command result to `[]`). -/
def getInfluenceWeights (st : LayerBuffers) (layerId : ℤ) (target : PaintTarget) :
    List ℚ :=
  (st layerId target).getD []

/-! ## Layer opacity (spec-modelled engine state) -/

/-- Opacity stored per layer id inside the engine. -/
def OpacityState : Type := ℤ → ℚ

/-- Modelled from the spec: opacity storage of the compiled `ngst2Layers` command
is not part of the repository sources (`MllInterface.setLayerOpacity` only
forwards the value).  The spec settles the out-of-range case as clamp-to-1.0, so a
write stores the value capped at 1.0. -/
def setLayerOpacity (layerId : ℤ) (opacity : ℚ) (st : OpacityState) : OpacityState :=
  fun l => if l = layerId then min opacity 1 else st l

/-- Modelled from the spec: `MllInterface.getLayerOpacity` returns the stored
opacity of the given layer as a float. -/
def getLayerOpacity (st : OpacityState) (layerId : ℤ) : ℚ :=
  st layerId

/-! ## Batch update scope (spec-modelled engine counter) -/

/-- A call relevant to the batch-update scope: `beginDataUpdate`, `endDataUpdate`,
or a layer mutation such as `setInfluenceWeights` / `setLayerOpacity`. -/
inductive BatchOp where
  | beginUpdate : BatchOp
  | endUpdate : BatchOp
  | mutate : BatchOp
deriving DecidableEq

/-- Modelled from the spec: the suspension counter of the compiled `ngst2Layers`
command is not part of the repository sources.  Per the spec (Batch Update Scope)
and the `beginDataUpdate` docstring, begin increments the counter, end decrements
it and triggers the single deferred recomposition when it reaches zero, and a
mutation recomputes immediately only while the counter is zero.  Returns the new
counter and how many recompositions the call fired. -/
def stepOp (c : ℕ) : BatchOp → ℕ × ℕ
  | BatchOp.beginUpdate => (c + 1, 0)
  | BatchOp.endUpdate => (c - 1, if c = 1 then 1 else 0)
  | BatchOp.mutate => (c, if c = 0 then 1 else 0)

/-- Runs a sequence of batch operations from counter `c`, returning the final
counter and the total number of recompositions fired. -/
def runOps (c : ℕ) : List BatchOp → ℕ × ℕ
  | [] => (c, 0)
  | op :: rest =>
      let s := stepOp c op
      let r := runOps s.1 rest
      (r.1, s.2 + r.2)

/-- Well-formed operation sequences strictly inside a batch-update scope: any
interleaving of layer mutations and properly nested begin/end sub-scopes. -/
inductive InnerOps : List BatchOp → Prop where
  | nil : InnerOps []
  | mutate {rest : List BatchOp} : InnerOps rest → InnerOps (BatchOp.mutate :: rest)
  | scope {body rest : List BatchOp} : InnerOps body → InnerOps rest →
      InnerOps (BatchOp.beginUpdate :: (body ++ ([BatchOp.endUpdate] ++ rest)))

/-! ## Per-vertex prune (spec-modelled engine algorithm) -/

/-- Modelled from the spec: the prune step of the compiled `ngst2Layers` command is
not part of the repository sources.  Per the `pruneWeights` docstring, every
influence weight of the vertex below the threshold is set to 0. -/
def pruneVertexWeights (threshold : ℚ) (ws : List ℚ) : List ℚ :=
  ws.map (fun w => if w < threshold then 0 else w)

/-- Modelled from the spec: after pruning, the remaining weights are upscaled so
the per-vertex total is preserved; the scale step is skipped when the remaining
total is zero, so it never divides by zero. -/
def rescaleAfterPrune (total : ℚ) (pruned : List ℚ) : List ℚ :=
  if pruned.sum = 0 then pruned
  else pruned.map (fun w => w * (total / pruned.sum))

/-- Modelled from the spec: the whole per-vertex prune operation — zero every
weight below the threshold, then rescale to preserve the per-vertex total. -/
def pruneWeightsVertex (threshold : ℚ) (ws : List ℚ) : List ℚ :=
  rescaleAfterPrune ws.sum (pruneVertexWeights threshold ws)

end NgSkinTools2

namespace NgSkinTools2

/-! ## Helper lemmas -/

theorem runOps_append (l₁ l₂ : List BatchOp) (c : ℕ) :
    runOps c (l₁ ++ l₂) =
      ((runOps (runOps c l₁).1 l₂).1,
        (runOps c l₁).2 + (runOps (runOps c l₁).1 l₂).2) := by
  induction l₁ generalizing c with
  | nil => simp [runOps]
  | cons op rest ih => simp [runOps, ih, Nat.add_assoc]

theorem runOps_inner {body : List BatchOp} (h : InnerOps body) :
    ∀ c : ℕ, 1 ≤ c → runOps c body = (c, 0) := by
  induction h with
  | nil => intro c _; rfl
  | mutate _ ih =>
      intro c hc
      have hc0 : c ≠ 0 := by omega
      simp [runOps, stepOp, hc0, ih c hc]
  | scope _ _ ihb ihr =>
      intro c hc
      have hc1 : c + 1 ≠ 1 := by omega
      simp only [runOps, stepOp]
      rw [runOps_append, ihb (c + 1) (by omega)]
      rw [runOps_append]
      simp [runOps, stepOp, hc1, ihr c hc]

theorem sum_map_mul_const (l : List ℚ) (k : ℚ) :
    (l.map (fun x => x * k)).sum = l.sum * k := by
  induction l with
  | nil => simp
  | cons x rest ih => simp [ih, add_mul]

/-! ## Claim theorems for the import action and the prune wrappers -/

/-- Claim C1: the claim states that `ilm_data_list` consumes every parsed record
across all influence groups, returning exactly the subset of all records' paths
that exist in the scene.  The code rebinds the accumulator per group, so on a file
with two influence groups whose first group matches the scene it raises instead of
returning the matching path: the claim is right and the code is wrong. -/
theorem ilm_data_list_drops_earlier_groups :
    (ilm_data_list ["|rig|jointA"]
        [[⟨"|rig|jointA", [1]⟩], [⟨"|rig|jointB", [1]⟩]]).2 =
      Except.error "nothing object is matched between the data and the scene!"
    ∧ specMatchedObjects ["|rig|jointA"]
        [[⟨"|rig|jointA", [1]⟩], [⟨"|rig|jointB", [1]⟩]] = ["|rig|jointA"] :=
  ⟨rfl, rfl⟩

/-- Claim C2: the claim states that every referenced object absent from the scene
gets a warning and is skipped, and that the import raises if and only if the set of
matched objects is empty.  On a two-group file whose first group matches the scene,
the matched set over all records is nonempty, yet the code raises (it only examines
the last group): the "if and only if" fails on the code. -/
theorem ilm_data_list_raise_iff_violated :
    (ilm_data_list ["|grp|jointC"]
        [[⟨"|grp|jointC", [1]⟩], [⟨"|grp|jointD", [1]⟩]]).2 =
      Except.error "nothing object is matched between the data and the scene!"
    ∧ (ilm_data_list ["|grp|jointC"]
        [[⟨"|grp|jointC", [1]⟩], [⟨"|grp|jointD", [1]⟩]]).1 =
        ["jointD does not exist in the scene"]
    ∧ specMatchedObjects ["|grp|jointC"]
        [[⟨"|grp|jointC", [1]⟩], [⟨"|grp|jointD", [1]⟩]] ≠ [] :=
  ⟨rfl, by decide, by decide⟩

/-- Claim C4: the claim (and the function docstring) says that omitting the layer
id makes `pruneWeights`/`pruneMask` act on the currently selected layer without
raising.  In reality `int(None)` raises `TypeError` before the command is even
issued, whatever the current layer is; an explicit id works fine. -/
theorem pruneWeights_default_layer_raises :
    pruneWeights none (1 / 100) =
      Except.error "TypeError: int argument must not be NoneType"
    ∧ pruneMask none (1 / 100) =
      Except.error "TypeError: int argument must not be NoneType"
    ∧ (∀ l : ℤ, pruneWeights (some l) (1 / 100) = Except.ok ⟨l, false, 1 / 100⟩)
    ∧ (∀ l : ℤ, pruneMask (some l) (1 / 100) = Except.ok ⟨l, true, 1 / 100⟩) :=
  ⟨rfl, rfl, fun _ => rfl, fun _ => rfl⟩

/-- Claim C3: under the with-statement semantics, entering the batch-update scope
through `BatchUpdateContext` issues one `endDataUpdate` call on every exit path —
the final call log holds exactly one more `endDataUpdate` call than the body
produced, whether the body finished normally or raised — and a raised exception is
propagated unchanged (exit returns a falsy value). -/
theorem batchUpdateContext_end_on_every_path {ε : Type}
    (body : List MllEvent → List MllEvent × Option ε) (s : List MllEvent) :
    (pyWith BatchUpdateContext body s).1.count MllEvent.endDataUpdate =
      ((body (beginDataUpdate s)).1.count MllEvent.endDataUpdate) + 1
    ∧ (pyWith BatchUpdateContext body s).2 = (body (beginDataUpdate s)).2 := by
  constructor
  · cases h : (body (beginDataUpdate s)).2 <;>
      simp [pyWith, BatchUpdateContext, endDataUpdate, h]
  · cases h : (body (beginDataUpdate s)).2 <;>
      simp [pyWith, BatchUpdateContext, h]

/-- Claim C10: the interface uniformly encodes the absent layer reference as id 0:
`setCurrentLayer(None)` and `setLayerParent(layerId, None)` pass 0 down to the
command, the getters return `None` exactly when the command answers 0, and no
getter ever surfaces 0 as a usable layer id. -/
theorem nullLayer_encoded_as_zero :
    setCurrentLayerArg none = 0
    ∧ setLayerParentArg none = 0
    ∧ (∀ l : ℤ, setCurrentLayerArg (some l) = l)
    ∧ (∀ p : ℤ, setLayerParentArg (some p) = p)
    ∧ (∀ r : ℤ, getCurrentLayerResult r = none ↔ r = 0)
    ∧ (∀ r : ℤ, getLayerParentResult r = none ↔ r = 0)
    ∧ (∀ r : ℤ, getCurrentLayerResult r ≠ some 0)
    ∧ (∀ r : ℤ, getLayerParentResult r ≠ some 0) := by
  refine ⟨rfl, rfl, fun _ => rfl, fun _ => rfl, ?_, ?_, ?_, ?_⟩ <;>
    intro r <;> by_cases h : r = 0 <;>
      simp [getCurrentLayerResult, getLayerParentResult, h]

/-- Claim C5: writing a weight list of the mesh's vertex count to a layer's paint
target and reading the same buffer back returns the same values with every value
above 1.0 capped at 1.0. -/
theorem setInfluenceWeights_roundtrip_clamp (vertCount : ℕ) (st : LayerBuffers)
    (layerId : ℤ) (target : PaintTarget) (weights : List ℚ)
    (h : weights.length = vertCount) :
    getInfluenceWeights (setInfluenceWeights layerId target weights st) layerId
        target =
      weights.map (fun w => min w 1) := by
  cases weights <;>
    simp [getInfluenceWeights, setInfluenceWeights]

/-- Witness for claim C5 at a concrete input: a three-vertex mesh, weights
`[2, 1/2, 0]`, layer 7, influence 0. -/
theorem setInfluenceWeights_roundtrip_clamp_witness :
    ([(2 : ℚ), 1 / 2, 0].length = 3)
    ∧ getInfluenceWeights
        (setInfluenceWeights 7 (PaintTarget.influence 0) [(2 : ℚ), 1 / 2, 0]
          (fun _ _ => none))
        7 (PaintTarget.influence 0) =
      [(2 : ℚ), 1 / 2, 0].map (fun w => min w 1) :=
  ⟨rfl,
    setInfluenceWeights_roundtrip_clamp 3 (fun _ _ => none) 7
      (PaintTarget.influence 0) [(2 : ℚ), 1 / 2, 0] rfl⟩

/-- Claim C6: the wrapper marshals an empty weight list to the empty string, and
writing an empty sequence to any layer's paint target resets that buffer to the
uninitialized state, so reading the same buffer afterwards returns the empty
sequence. -/
theorem setInfluenceWeights_empty_resets :
    floatListAsString [] = ""
    ∧ ∀ (st : LayerBuffers) (layerId : ℤ) (target : PaintTarget),
        getInfluenceWeights (setInfluenceWeights layerId target [] st) layerId
          target = [] := by
  refine ⟨rfl, fun st layerId target => ?_⟩
  simp [getInfluenceWeights, setInfluenceWeights]

/-- Claim C7: writing an opacity above 1.0 stores it clamped to 1.0, so the
subsequent read of the same layer returns a value between 0.0 and 1.0 (namely
exactly 1.0). -/
theorem setLayerOpacity_clamps_above_one (st : OpacityState) (layerId : ℤ)
    (opacity : ℚ) (h : 1 < opacity) :
    getLayerOpacity (setLayerOpacity layerId opacity st) layerId = 1
    ∧ 0 ≤ getLayerOpacity (setLayerOpacity layerId opacity st) layerId
    ∧ getLayerOpacity (setLayerOpacity layerId opacity st) layerId ≤ 1 := by
  have h1 : getLayerOpacity (setLayerOpacity layerId opacity st) layerId = 1 := by
    simp [getLayerOpacity, setLayerOpacity, min_eq_right h.le]
  exact ⟨h1, by rw [h1]; norm_num, by rw [h1]⟩

/-- Witness for claim C7 at a concrete input: opacity 2 on layer 3 over the
all-one opacity state. -/
theorem setLayerOpacity_clamps_above_one_witness :
    (1 : ℚ) < 2
    ∧ (getLayerOpacity (setLayerOpacity 3 2 (fun _ => 1)) 3 = 1
        ∧ 0 ≤ getLayerOpacity (setLayerOpacity 3 2 (fun _ => 1)) 3
        ∧ getLayerOpacity (setLayerOpacity 3 2 (fun _ => 1)) 3 ≤ 1) :=
  ⟨by norm_num, setLayerOpacity_clamps_above_one (fun _ => 1) 3 2 (by norm_num)⟩

/-- Claim C8: for a properly nested begin/end sequence interleaved with layer
mutations — an outermost begin, a well-formed inner sequence, and the outermost
end — no recomposition fires before the outermost end, and exactly one
recomposition in total fires once the outermost end runs, whatever the nesting
depth (the final suspension counter is back to zero). -/
theorem batch_recompose_exactly_once {body : List BatchOp} (h : InnerOps body) :
    (runOps 0 (BatchOp.beginUpdate :: body)).2 = 0
    ∧ runOps 0 (BatchOp.beginUpdate :: (body ++ [BatchOp.endUpdate])) = (0, 1) := by
  constructor
  · simp [runOps, stepOp, runOps_inner h 1 le_rfl]
  · simp only [runOps, stepOp]
    rw [runOps_append, runOps_inner h 1 le_rfl]
    simp [runOps, stepOp]

/-- Witness for claim C8 on the spec's example trace
begin, begin, set, end, set, end: one recomposition, after the last end. -/
theorem batch_recompose_exactly_once_witness :
    (runOps 0 (BatchOp.beginUpdate ::
        [BatchOp.beginUpdate, BatchOp.mutate, BatchOp.endUpdate, BatchOp.mutate])).2 = 0
    ∧ runOps 0 (BatchOp.beginUpdate ::
        ([BatchOp.beginUpdate, BatchOp.mutate, BatchOp.endUpdate, BatchOp.mutate] ++
          [BatchOp.endUpdate])) = (0, 1) :=
  batch_recompose_exactly_once
    (InnerOps.scope (InnerOps.mutate InnerOps.nil) (InnerOps.mutate InnerOps.nil))

/-- Claim C9: for a vertex with nonnegative weights and a nonnegative threshold,
if at least one weight is above the threshold then pruning preserves the total
per-vertex weight exactly; and when every remaining weight is zero the rescale
step is skipped, returning the pruned weights unchanged (no division by the zero
total). -/
theorem pruneWeightsVertex_preserves_total (threshold : ℚ) (ws : List ℚ)
    (ht : 0 ≤ threshold) (hnn : ∀ w ∈ ws, 0 ≤ w) :
    ((∃ w ∈ ws, threshold < w) →
        (pruneWeightsVertex threshold ws).sum = ws.sum)
    ∧ ((pruneVertexWeights threshold ws).sum = 0 →
        pruneWeightsVertex threshold ws = pruneVertexWeights threshold ws) := by
  constructor
  · rintro ⟨w, hw, htw⟩
    have hpos : 0 < (pruneVertexWeights threshold ws).sum := by
      have hkeep : (if w < threshold then (0 : ℚ) else w) = w :=
        if_neg (not_lt.mpr htw.le)
      have hmem : w ∈ pruneVertexWeights threshold ws :=
        List.mem_map.mpr ⟨w, hw, hkeep⟩
      have hnn' : ∀ x ∈ pruneVertexWeights threshold ws, 0 ≤ x := by
        intro x hx
        rcases List.mem_map.mp hx with ⟨y, hy, rfl⟩
        by_cases hyt : y < threshold
        · simp [hyt]
        · simpa [hyt] using hnn y hy
      have hle : w ≤ (pruneVertexWeights threshold ws).sum :=
        List.single_le_sum hnn' w hmem
      exact lt_of_le_of_lt ht (lt_of_lt_of_le htw hle)
    have hne : (pruneVertexWeights threshold ws).sum ≠ 0 := ne_of_gt hpos
    rw [pruneWeightsVertex, rescaleAfterPrune, if_neg hne, sum_map_mul_const,
      mul_comm, div_mul_cancel₀ _ hne]
  · intro hz
    simp [pruneWeightsVertex, rescaleAfterPrune, hz]

/-- Witness for claim C9 at a concrete input: threshold 1/10 over the vertex
weights [1, 1/20]; the total 21/20 is preserved. -/
theorem pruneWeightsVertex_preserves_total_witness :
    (0 : ℚ) ≤ 1 / 10
    ∧ (∀ w ∈ [(1 : ℚ), 1 / 20], 0 ≤ w)
    ∧ (∃ w ∈ [(1 : ℚ), 1 / 20], (1 / 10 : ℚ) < w)
    ∧ (pruneWeightsVertex (1 / 10) [(1 : ℚ), 1 / 20]).sum =
        ([(1 : ℚ), 1 / 20]).sum := by
  have hnn : ∀ w ∈ [(1 : ℚ), 1 / 20], 0 ≤ w := by
    intro w hw
    fin_cases hw <;> norm_num
  have hmem : (1 : ℚ) ∈ [(1 : ℚ), 1 / 20] := by simp
  refine ⟨by norm_num, hnn, ⟨1, hmem, by norm_num⟩, ?_⟩
  exact (pruneWeightsVertex_preserves_total (1 / 10) [(1 : ℚ), 1 / 20]
      (by norm_num) hnn).1 ⟨1, hmem, by norm_num⟩

end NgSkinTools2
